import Mathlib

/-!
Verification of the MCP-server factory (`src/mcp_server/factory.py` and
`src/utils.py`) against its natural-language specification.

The Python code is shallowly embedded: JSON documents become the inductive
type `JVal`, Python exceptions become the `PyErr` sum carried by `Except`,
and each factory method becomes an executable Lean function over an explicit
`FactoryState`.  External collaborators that the factory merely delegates to
(the OpenAPI loader, `FastMCP.from_openapi`, the tool transformer's run, the
filesystem) are modelled as an `Env` record of outcomes supplied to `build`.
-/

/-- A JSON value, as produced by `json.load` / the OpenAPI loader. JSON
numbers are modelled by `Int`: no claim computes with numeric values, they
only occur as opaque leaves. -/
inductive JVal where
  | null : JVal
  | bool : Bool → JVal
  | num : Int → JVal
  | str : String → JVal
  | arr : List JVal → JVal
  | obj : List (String × JVal) → JVal

/-- Python exceptions relevant to the factory. -/
inductive PyErr where
  | valueError : String → PyErr
  | typeError : PyErr
  | keyError : PyErr
  | attributeError : PyErr
  | fileNotFound : PyErr
  | jsonDecode : PyErr
  | osError : PyErr
  | externalError : String → PyErr
deriving DecidableEq

/-- Python truthiness of a JSON value (`if v:`). -/
def JVal.truthy : JVal → Bool
  | .null => false
  | .bool b => b
  | .num n => n != 0
  | .str s => decide (s ≠ "")
  | .arr xs => !xs.isEmpty
  | .obj kvs => !kvs.isEmpty

/-- `needle` is a prefix of `hay`, over character lists. -/
def charListStartsWith : List Char → List Char → Bool
  | [], _ => true
  | _ :: _, [] => false
  | n :: ns, h :: hs => n = h && charListStartsWith ns hs

/-- `needle` occurs as a contiguous sublist of `hay`. -/
def charListContains (needle : List Char) : List Char → Bool
  | [] => needle.isEmpty
  | h :: hs => charListStartsWith needle (h :: hs) || charListContains needle hs

/-- `hay` contains `needle` as a substring (Python `needle in hay` on
`str`). -/
def strContainsSub (hay needle : String) : Bool :=
  charListContains needle.toList hay.toList

/-- Python `v.get(k, d)`: key lookup with default on a `dict`,
`AttributeError` on any other JSON value. -/
def pyDictGet (v : JVal) (k : String) (d : JVal) : Except PyErr JVal :=
  match v with
  | .obj kvs =>
    match kvs.lookup k with
    | some x => .ok x
    | none => .ok d
  | _ => .error .attributeError

/-- Python `needle in v` for a string `needle`: key membership on a `dict`,
element equality on a `list` (a string equals only an equal string),
substring test on a `str`, `TypeError` on non-container values. -/
def pyContainsStr (needle : String) : JVal → Except PyErr Bool
  | .obj kvs => .ok (kvs.any (fun kv => kv.fst = needle))
  | .arr xs =>
    .ok (xs.any (fun x => match x with | .str s => s = needle | _ => false))
  | .str s => .ok (strContainsSub s needle)
  | _ => .error .typeError

/-- Python `v[k]` for a string key `k`: lookup (or `KeyError`) on a `dict`,
`TypeError` on every other JSON value. -/
def pySubscrStr (v : JVal) (k : String) : Except PyErr JVal :=
  match v with
  | .obj kvs =>
    match kvs.lookup k with
    | some x => .ok x
    | none => .error .keyError
  | _ => .error .typeError

/-- Modelled from the spec: `core/config.py` is not under `src/`; the
authentication configuration is an abstract value the factory only passes
through to `create_auth_handler`. -/
structure AuthConfig where
  raw : String
deriving DecidableEq

/-- Modelled from the spec: `mcp_server/auth.py` is not under `src/`; per the
spec, authentication scheme handling is delegated to external components, so
a handler is abstract and determined solely by the auth configuration given
to `create_auth_handler`. -/
structure AuthHandler where
  ofConfig : AuthConfig
deriving DecidableEq

/-- Embedding of `auth.create_auth_handler` as the abstract handler
constructor (its internals are external to the factory). -/
def create_auth_handler (a : AuthConfig) : AuthHandler := ⟨a⟩

/-- An HTTP route extracted from the OpenAPI document by the loader
(`fastmcp`'s `HTTPRoute`): `operation_id` may be absent. -/
structure HTTPRoute where
  method : String
  path : String
  operation_id : Option String
deriving DecidableEq

/-- `fastmcp.server.openapi.MCPType`, restricted to the members the factory
uses. -/
inductive MCPType where
  | TOOL : MCPType
  | EXCLUDE : MCPType
deriving DecidableEq

/-- `fastmcp.server.openapi.RouteMap`: `none` models an argument left at its
default. -/
structure RouteMap where
  methods : Option (List String)
  pattern : Option String
  mcp_type : MCPType
deriving DecidableEq

/-- The `httpx.AsyncClient` as configured by the factory: only the
constructor arguments the code passes, plus a `closed` flag recording that
`aclose` was awaited.  The 30.0-second timeout is modelled as a rational. -/
structure ApiClient where
  base_url : JVal
  headers : List (String × String)
  timeout : ℚ
  auth : AuthHandler
  closed : Bool

/-- The configuration record consumed by the factory (`MCPServiceConfig`):
only the fields `factory.py` reads.  `tool_mappings_file` is `none` for
Python `None`; `some ""` is a configured but falsy (empty) path. -/
structure MCPServiceConfig where
  name : String
  openapi_path_or_url : String
  tool_mappings_file : Option String
  auth : AuthConfig

/-- A `ToolTransformer` as constructed by the factory: the constructor
arguments of the two instantiations in `factory.py`. `has_server` is false
for the temporary transformer built with `mcp_server=None`. -/
structure ToolTransformer where
  has_server : Bool
  http_routes : List HTTPRoute
  custom_tool_names : JVal
  op_id_map : List (String × String)

/-- Modelled from the spec: `mcp_server/tool_transformer.py` is not under
`src/`.  Per the spec, renaming is driven purely by the operation-id →
custom-tool-name lookup table, so the custom name a transformer applies to a
tool with a given operation id is the value its `custom_tool_names` table
associates with that id (absent when the table is not an object or lacks the
id). -/
def ToolTransformer.customNameFor (t : ToolTransformer) (opId : String) :
    Option JVal :=
  match t.custom_tool_names with
  | .obj kvs => kvs.lookup opId
  | _ => none

/-- The `FastMCP` server value produced by `_create_mcp_server`: the
arguments the factory passes to `FastMCP.from_openapi`, plus the custom
health route registered afterwards. -/
structure FastMCPServer where
  name : String
  openapi_spec : JVal
  client : ApiClient
  route_maps : List RouteMap
  auth : Option AuthHandler
  component_fn : ToolTransformer
  custom_routes : List (String × List String)

/-- Outcome of opening and JSON-parsing the configured tool-mappings file:
`content v` when the file exists and parses to `v`; `invalidJson` for a
`json.JSONDecodeError`; `notFound` for a `FileNotFoundError`; `osError` for
any other I/O failure of `open`/`read` (permission denied, path is a
directory, undecodable bytes, ...). -/
inductive FileOutcome where
  | content : JVal → FileOutcome
  | invalidJson : FileOutcome
  | notFound : FileOutcome
  | osError : FileOutcome

/-- Outcomes of the external collaborators a `build` run delegates to: the
filesystem read of the mappings file, `OpenAPILoader.load`,
`FastMCP.from_openapi`, and `ToolTransformer.transform_tools`. -/
structure Env where
  mappingsFile : FileOutcome
  openapiLoad : Except PyErr (JVal × List HTTPRoute)
  fromOpenapi : Except PyErr Unit
  transformRun : Except PyErr Unit

namespace MCPFactory

/-- The mutable attributes of `MCPFactory` (`__init__`): `none` models a
Python `None` attribute. -/
structure FactoryState where
  config : MCPServiceConfig
  api_client : Option ApiClient
  openapi_spec : Option JVal
  http_routes : Option (List HTTPRoute)
  base_url : Option JVal
  op_id_to_mangled_name : List (String × String)
  tool_mappings : JVal

/-- `MCPFactory.__init__`: every attribute but the config and logger starts
out `None` (or an empty dict). -/
def initState (cfg : MCPServiceConfig) : FactoryState where
  config := cfg
  api_client := none
  openapi_spec := none
  http_routes := none
  base_url := none
  op_id_to_mangled_name := []
  tool_mappings := .obj []

/-- The default base URL used when the OpenAPI document names no server. -/
def defaultBaseUrl : JVal := .str "http://localhost:8000"

/-- Embedding of `MCPFactory._determine_base_url`, as a function of the
`openapi_spec` attribute (`none` models Python `None`, i.e. the
specification was never loaded).  Returns the value assigned to
`self.base_url`, or the raised exception. -/
def determine_base_url (spec? : Option JVal) : Except PyErr JVal :=
  match spec? with
  | none => .error (.valueError "OpenAPI specification not loaded")
  | some spec =>
    if spec.truthy = false then
      .error (.valueError "OpenAPI specification not loaded")
    else
      match pyDictGet spec "servers" (.arr []) with
      | .error e => .error e
      | .ok servers =>
        match servers with
        | .arr (s0 :: _) =>
          match pyContainsStr "url" s0 with
          | .error e => .error e
          | .ok true => pySubscrStr s0 "url"
          | .ok false => .ok defaultBaseUrl
        | _ => .ok defaultBaseUrl

/-- The fixed default headers `_create_api_client` attaches to the HTTP
client. -/
def clientHeaders : List (String × String) :=
  [("User-Agent", "DataInclusion-MCP-Server/1.0"),
   ("Accept", "application/json")]

/-- Embedding of `MCPFactory._create_api_client` as a function of the
`base_url` attribute and the configuration: returns the `httpx.AsyncClient`
assigned to `self.api_client`, or the raised exception.  A falsy base URL
(`None` or the empty string) raises `ValueError`. -/
def create_api_client (cfg : MCPServiceConfig) (base_url? : Option JVal) :
    Except PyErr ApiClient :=
  match base_url? with
  | none => .error (.valueError "Base URL not determined")
  | some b =>
    if b.truthy = false then
      .error (.valueError "Base URL not determined")
    else
      .ok { base_url := b
            headers := clientHeaders
            timeout := 30
            auth := create_auth_handler cfg.auth
            closed := false }

/-- Embedding of `MCPFactory._load_tool_mappings`: returns the dictionary
assigned to `self.tool_mappings`, or the raised exception.  `fs` is the
outcome of opening and parsing the configured file; it is consulted only
when a truthy `tool_mappings_file` is configured. -/
def load_tool_mappings (cfg : MCPServiceConfig) (fs : FileOutcome) :
    Except PyErr JVal :=
  match cfg.tool_mappings_file with
  | none => .ok (.obj [])
  | some p =>
    if p = "" then .ok (.obj [])
    else
      match fs with
      | .content v => .ok v
      | .notFound => .ok (.obj [])
      | .invalidJson => .ok (.obj [])
      | .osError => .error .osError

/-- The `TOOL` route map `_create_mcp_server` appends for a selected route:
the route's single method and the anchored pattern built from its path. -/
def toolRouteMap (r : HTTPRoute) : RouteMap where
  methods := some [r.method]
  pattern := some ("^" ++ r.path ++ "$")
  mcp_type := .TOOL

/-- The final catch-all `EXCLUDE` route map (all constructor arguments left
at their defaults). -/
def excludeRouteMap : RouteMap where
  methods := none
  pattern := none
  mcp_type := .EXCLUDE

/-- Python `d.keys()` on the tool-mappings value: the keys of a `dict`,
`AttributeError` on any other JSON value. -/
def jsonObjKeys : JVal → Except PyErr (List String)
  | .obj kvs => .ok (kvs.map Prod.fst)
  | _ => .error .attributeError

/-- Membership of a route's `operation_id` in `set(tool_mappings.keys())`:
`None` is never a member of a set of string keys. -/
def opIdAllowed (keys : List String) : Option String → Bool
  | none => false
  | some s => keys.contains s

/-- The `route_maps` list built by `_create_mcp_server` (lines 170–183 of
`factory.py`): only under the name `"datainclusion"` does the factory build
one `TOOL` entry per route whose operation id is a mapping key followed by a
final `EXCLUDE` entry; for every other configuration name the list stays
empty. -/
def route_maps_of (cfg : MCPServiceConfig) (routes : List HTTPRoute)
    (tool_mappings : JVal) : Except PyErr (List RouteMap) :=
  if cfg.name = "datainclusion" then
    match jsonObjKeys tool_mappings with
    | .error e => .error e
    | .ok keys =>
      .ok (((routes.filter (fun r => opIdAllowed keys r.operation_id)).map
              toolRouteMap) ++ [excludeRouteMap])
  else .ok []

/-- Embedding of `MCPFactory._create_mcp_server`: guards on the loaded spec,
routes and client (Python truthiness: an empty route list also raises),
builds the route maps, constructs the temporary `ToolTransformer` passed as
`mcp_component_fn`, calls `FastMCP.from_openapi` (external, outcome from
`env`) and registers the `/health` route. -/
def create_mcp_server (st : FactoryState) (env : Env) :
    Except PyErr FastMCPServer :=
  match st.openapi_spec with
  | none => .error (.valueError "OpenAPI specification not loaded")
  | some spec =>
    if spec.truthy = false then
      .error (.valueError "OpenAPI specification not loaded")
    else
      match st.http_routes with
      | none => .error (.valueError "HTTP routes not loaded")
      | some routes =>
        if routes.isEmpty then
          .error (.valueError "HTTP routes not loaded")
        else
          match st.api_client with
          | none => .error (.valueError "API client not created")
          | some client =>
            match route_maps_of st.config routes st.tool_mappings with
            | .error e => .error e
            | .ok rms =>
              match env.fromOpenapi with
              | .error e => .error e
              | .ok _ =>
                .ok { name := st.config.name
                      openapi_spec := spec
                      client := client
                      route_maps := rms
                      auth := none
                      component_fn :=
                        { has_server := false
                          http_routes := routes
                          custom_tool_names := st.tool_mappings
                          op_id_map := st.op_id_to_mangled_name }
                      custom_routes := [("/health", ["GET"])] }

/-- Embedding of `MCPFactory._transform_tools`: guards on the loaded routes,
constructs the second `ToolTransformer` (now holding the server) and awaits
its `transform_tools` run (external, outcome from `env`).  Returns the
transformer it built so its arguments can be inspected. -/
def transform_tools (st : FactoryState) (env : Env) :
    Except PyErr ToolTransformer :=
  match st.http_routes with
  | none => .error (.valueError "HTTP routes not loaded")
  | some routes =>
    if routes.isEmpty then
      .error (.valueError "HTTP routes not loaded")
    else
      match env.transformRun with
      | .error e => .error e
      | .ok _ =>
        .ok { has_server := true
              http_routes := routes
              custom_tool_names := st.tool_mappings
              op_id_map := st.op_id_to_mangled_name }

/-- The labels of the build steps, in the order `build` runs them. -/
inductive BuildStep where
  | loadMappings : BuildStep
  | loadSpec : BuildStep
  | determineBase : BuildStep
  | createClient : BuildStep
  | createServer : BuildStep
  | transformToolsStep : BuildStep
deriving DecidableEq

/-- The `except` block of `build`: if an API client has already been
created, await its `aclose` before re-raising. -/
def closeClient (st : FactoryState) : FactoryState :=
  match st.api_client with
  | some c => { st with api_client := some { c with closed := true } }
  | none => st

/-- Embedding of `MCPFactory.build`: runs the six steps in source order,
threading the factory state; any exception closes the client (when one
exists) and is re-raised.  Returns the result, the final factory state, and
the trace of steps that were started. -/
def build (cfg : MCPServiceConfig) (env : Env) :
    Except PyErr FastMCPServer × FactoryState × List BuildStep :=
  let st0 := initState cfg
  let t1 := [BuildStep.loadMappings]
  match load_tool_mappings cfg env.mappingsFile with
  | .error e => (.error e, closeClient st0, t1)
  | .ok m =>
    let st1 := { st0 with tool_mappings := m }
    let t2 := t1 ++ [BuildStep.loadSpec]
    match env.openapiLoad with
    | .error e => (.error e, closeClient st1, t2)
    | .ok sr =>
      let st2 := { st1 with openapi_spec := some sr.1, http_routes := some sr.2 }
      let t3 := t2 ++ [BuildStep.determineBase]
      match determine_base_url st2.openapi_spec with
      | .error e => (.error e, closeClient st2, t3)
      | .ok b =>
        let st3 := { st2 with base_url := some b }
        let t4 := t3 ++ [BuildStep.createClient]
        match create_api_client cfg st3.base_url with
        | .error e => (.error e, closeClient st3, t4)
        | .ok client =>
          let st4 := { st3 with api_client := some client }
          let t5 := t4 ++ [BuildStep.createServer]
          match create_mcp_server st4 env with
          | .error e => (.error e, closeClient st4, t5)
          | .ok server =>
            let t6 := t5 ++ [BuildStep.transformToolsStep]
            match transform_tools st4 env with
            | .error e => (.error e, closeClient st4, t6)
            | .ok _ => (.ok server, st4, t6)

end MCPFactory

namespace Utils

/-- The `httpx.AsyncClient` built by `utils.create_api_client`: no auth
handler is passed, authentication (if any) lives in the headers. -/
structure LegacyClient where
  base_url : String
  headers : List (String × String)
  timeout : ℚ

/-- Embedding of `utils.create_api_client` (`src/utils.py`): builds a
Bearer `Authorization` header itself from the `DATA_INCLUSION_API_KEY`
environment variable when it is set, then adds the default headers. -/
def create_api_client (base_url : String) (api_key : Option String) :
    LegacyClient :=
  let authHeaders :=
    match api_key with
    | some k => if k = "" then [] else [("Authorization", "Bearer " ++ k)]
    | none => []
  { base_url := base_url
    headers := authHeaders ++ MCPFactory.clientHeaders
    timeout := 30 }

end Utils

/-! ## Claim-side predicate -/

/-- The selection criterion as the specification words it: a route is
exposed as a tool iff "its operation id is a key of the loaded name-mapping
table". -/
def opIdIsKeyOf (kvs : List (String × JVal)) : Option String → Bool
  | none => false
  | some s => kvs.any (fun kv => kv.fst = s)

/-! ## Concrete fixtures for witnesses and counterexamples -/

/-- A sample auth configuration. -/
def sampleAuth : AuthConfig := ⟨"token"⟩

/-- A sample configuration with the special name `"datainclusion"`. -/
def cfgDataInclusion : MCPServiceConfig where
  name := "datainclusion"
  openapi_path_or_url := "openapi.json"
  tool_mappings_file := some "mappings.json"
  auth := sampleAuth

/-- A sample configuration with a different service name. -/
def cfgOther : MCPServiceConfig := { cfgDataInclusion with name := "generic" }

/-- A sample route whose operation id is a mapping key. -/
def routeIn : HTTPRoute := ⟨"GET", "/search", some "op_search"⟩

/-- A sample route whose operation id is not a mapping key. -/
def routeOut : HTTPRoute := ⟨"POST", "/admin", some "op_admin"⟩

/-- A sample tool-mappings table with the single key `"op_search"`. -/
def sampleMappings : JVal := .obj [("op_search", .str "search_services")]

/-- A minimal truthy OpenAPI document without a `servers` section. -/
def sampleSpec : JVal := .obj [("openapi", .str "3.0.0")]

/-- The API client the factory builds for the default base URL. -/
def sampleClient : ApiClient where
  base_url := MCPFactory.defaultBaseUrl
  headers := MCPFactory.clientHeaders
  timeout := 30
  auth := create_auth_handler sampleAuth
  closed := false

/-- A factory state as it stands right before `_create_mcp_server` in a
successful run over the sample fixtures. -/
def sampleState : MCPFactory.FactoryState where
  config := cfgDataInclusion
  api_client := some sampleClient
  openapi_spec := some sampleSpec
  http_routes := some [routeIn, routeOut]
  base_url := some MCPFactory.defaultBaseUrl
  op_id_to_mangled_name := []
  tool_mappings := sampleMappings

/-- External outcomes for a fully successful run. -/
def sampleEnv : Env where
  mappingsFile := .content sampleMappings
  openapiLoad := .ok (sampleSpec, [routeIn, routeOut])
  fromOpenapi := .ok ()
  transformRun := .ok ()

/-- The server `_create_mcp_server` produces from `sampleState`. -/
def sampleServer : FastMCPServer where
  name := "datainclusion"
  openapi_spec := sampleSpec
  client := sampleClient
  route_maps := [MCPFactory.toolRouteMap routeIn, MCPFactory.excludeRouteMap]
  auth := none
  component_fn :=
    { has_server := false
      http_routes := [routeIn, routeOut]
      custom_tool_names := sampleMappings
      op_id_map := [] }
  custom_routes := [("/health", ["GET"])]

/-- External outcomes where only the final tool transformation fails. -/
def failEnv : Env := { sampleEnv with transformRun := .error (.externalError "transform failed") }

/-- The full result of a sample `build` run that fails at the last step. -/
def buildFail : Except PyErr FastMCPServer × MCPFactory.FactoryState × List MCPFactory.BuildStep :=
  MCPFactory.build cfgDataInclusion failEnv

/-- The full result of a successful sample `build` run. -/
def buildOk : Except PyErr FastMCPServer × MCPFactory.FactoryState × List MCPFactory.BuildStep :=
  MCPFactory.build cfgDataInclusion sampleEnv

/-! ## Helper lemmas -/

/-- The boolean key test `any (·.fst = k)` agrees with `lookup k` being
defined. -/
theorem anyKey_eq_lookup_isSome (k : String) (l : List (String × JVal)) :
    l.any (fun kv => kv.fst = k) = (l.lookup k).isSome := by
  induction l with
  | nil => rfl
  | cons hd tl ih =>
    obtain ⟨a, v⟩ := hd
    by_cases hak : a = k
    · subst hak
      simp [List.lookup_cons]
    · have hbeq : (k == a) = false := beq_eq_false_iff_ne.mpr (Ne.symm hak)
      have hd : decide (a = k) = false := decide_eq_false hak
      rw [List.any_cons, List.lookup_cons, hbeq, hd, Bool.false_or, ih]

/-! ## C6: `_determine_base_url` -/

/-- **C6, counterexample.** The claim says that whenever the first element
of `servers` lacks the key `"url"`, the default base URL is used; but when
that first element is the number `5`, the Python membership test
`"url" in servers[0]` raises `TypeError`, so `_determine_base_url` raises
instead of defaulting. -/
theorem determine_base_url_claim_counterexample :
    MCPFactory.determine_base_url (some (.obj [("servers", .arr [.num 5])])) =
      .error .typeError ∧
    MCPFactory.determine_base_url (some (.obj [("servers", .arr [.num 5])])) ≠
      .ok MCPFactory.defaultBaseUrl := by
  constructor
  · rfl
  · intro h
    have h' : (Except.error PyErr.typeError : Except PyErr JVal) =
        .ok MCPFactory.defaultBaseUrl := h
    exact Except.noConfusion h'

/-- **C6 (amended).** `_determine_base_url` raises `ValueError` when the
specification is not loaded; for a loaded non-empty specification object it
returns `servers[0]["url"]` when the `servers` entry is a non-empty list
whose first element is an object containing the key `"url"`; it returns the
default `http://localhost:8000` when that first object lacks `"url"`, when
`servers` is absent, or when the `servers` value is not a non-empty list;
and it raises `TypeError` when the first element of a non-empty `servers`
list is a number, boolean or null. -/
theorem determine_base_url_cases :
    (MCPFactory.determine_base_url none =
       .error (.valueError "OpenAPI specification not loaded")) ∧
    (∀ kvs : List (String × JVal), kvs ≠ [] →
      (∀ m rest u, kvs.lookup "servers" = some (.arr (.obj m :: rest)) →
          m.lookup "url" = some u →
          MCPFactory.determine_base_url (some (.obj kvs)) = .ok u) ∧
      (∀ m rest, kvs.lookup "servers" = some (.arr (.obj m :: rest)) →
          m.lookup "url" = none →
          MCPFactory.determine_base_url (some (.obj kvs)) =
            .ok MCPFactory.defaultBaseUrl) ∧
      (kvs.lookup "servers" = none →
          MCPFactory.determine_base_url (some (.obj kvs)) =
            .ok MCPFactory.defaultBaseUrl) ∧
      (∀ v, kvs.lookup "servers" = some v →
          (∀ s0 rest, v ≠ .arr (s0 :: rest)) →
          MCPFactory.determine_base_url (some (.obj kvs)) =
            .ok MCPFactory.defaultBaseUrl) ∧
      (∀ h0 rest, kvs.lookup "servers" = some (.arr (h0 :: rest)) →
          (h0 = .null ∨ (∃ b, h0 = .bool b) ∨ (∃ n, h0 = .num n)) →
          MCPFactory.determine_base_url (some (.obj kvs)) =
            .error .typeError)) := by
  constructor
  · rfl
  · intro kvs hkvs
    have hne : kvs.isEmpty = false := by
      cases kvs with
      | nil => exact absurd rfl hkvs
      | cons a l => rfl
    refine ⟨?_, ?_, ?_, ?_, ?_⟩
    · intro m rest u hserv hurl
      have hmem : m.any (fun kv => kv.fst = "url") = true := by
        rw [anyKey_eq_lookup_isSome, hurl]
        rfl
      simp [MCPFactory.determine_base_url, JVal.truthy, hne, pyDictGet, hserv,
        pyContainsStr, hmem, pySubscrStr, hurl]
    · intro m rest hserv hurl
      have hmem : m.any (fun kv => kv.fst = "url") = false := by
        rw [anyKey_eq_lookup_isSome, hurl]
        rfl
      simp [MCPFactory.determine_base_url, JVal.truthy, hne, pyDictGet, hserv,
        pyContainsStr, hmem]
    · intro hserv
      simp [MCPFactory.determine_base_url, JVal.truthy, hne, pyDictGet, hserv]
    · intro v hserv hnotarr
      have : ∀ s0 rest, v = .arr (s0 :: rest) → False := by
        intro s0 rest h
        exact hnotarr s0 rest h
      cases v with
      | null => simp [MCPFactory.determine_base_url, JVal.truthy, hne, pyDictGet, hserv]
      | bool b => simp [MCPFactory.determine_base_url, JVal.truthy, hne, pyDictGet, hserv]
      | num n => simp [MCPFactory.determine_base_url, JVal.truthy, hne, pyDictGet, hserv]
      | str s => simp [MCPFactory.determine_base_url, JVal.truthy, hne, pyDictGet, hserv]
      | obj o => simp [MCPFactory.determine_base_url, JVal.truthy, hne, pyDictGet, hserv]
      | arr xs =>
        cases xs with
        | nil => simp [MCPFactory.determine_base_url, JVal.truthy, hne, pyDictGet, hserv]
        | cons x l => exact absurd rfl (hnotarr x l)
    · intro h0 rest hserv hshape
      rcases hshape with h | ⟨b, h⟩ | ⟨n, h⟩ <;> subst h <;>
        simp [MCPFactory.determine_base_url, JVal.truthy, hne, pyDictGet, hserv,
          pyContainsStr]

/-- **C6, witness.** The amended characterisation applied at a concrete
one-server specification. -/
theorem determine_base_url_cases_witness :
    MCPFactory.determine_base_url
      (some (.obj [("servers",
        .arr [.obj [("url", .str "https://api.example")]])])) =
      .ok (.str "https://api.example") :=
  (determine_base_url_cases.2
      [("servers", .arr [.obj [("url", .str "https://api.example")]])]
      (by simp)).1
    [("url", .str "https://api.example")] [] (.str "https://api.example")
    (by rfl) (by rfl)

/-! ## C5: `_load_tool_mappings` -/

/-- **C5, counterexample.** The claim says `_load_tool_mappings` never
raises; but only `FileNotFoundError` and `json.JSONDecodeError` are caught,
so any other failure of `open`/`read` (permission denied, path is a
directory, undecodable bytes) propagates: with a mappings file configured
and the read failing with such an `OSError`, the call raises instead of
returning a dictionary. -/
theorem load_tool_mappings_claim_counterexample :
    MCPFactory.load_tool_mappings cfgDataInclusion .osError = .error .osError ∧
    MCPFactory.load_tool_mappings cfgDataInclusion .osError ≠ .ok (.obj []) := by
  constructor
  · rfl
  · intro h
    have h' : (Except.error PyErr.osError : Except PyErr JVal) = .ok (.obj []) := h
    exact Except.noConfusion h'

/-- **C5 (amended).** `_load_tool_mappings` returns the empty dictionary
when no truthy `tool_mappings_file` is configured, when the configured file
does not exist (`FileNotFoundError`), or when its contents are not valid
JSON (`json.JSONDecodeError`), and returns the parsed value when the file
reads and parses; any other I/O error of opening or reading the file is not
caught and propagates. -/
theorem load_tool_mappings_cases (cfg : MCPServiceConfig) (fs : FileOutcome) :
    ((cfg.tool_mappings_file = none ∨ cfg.tool_mappings_file = some "") →
       MCPFactory.load_tool_mappings cfg fs = .ok (.obj [])) ∧
    (∀ p, cfg.tool_mappings_file = some p → p ≠ "" →
      (fs = .notFound → MCPFactory.load_tool_mappings cfg fs = .ok (.obj [])) ∧
      (fs = .invalidJson →
        MCPFactory.load_tool_mappings cfg fs = .ok (.obj [])) ∧
      (∀ v, fs = .content v → MCPFactory.load_tool_mappings cfg fs = .ok v) ∧
      (fs = .osError →
        MCPFactory.load_tool_mappings cfg fs = .error .osError)) := by
  constructor
  · rintro (hf | hf) <;> simp [MCPFactory.load_tool_mappings, hf]
  · intro p hp hpne
    refine ⟨?_, ?_, ?_, ?_⟩ <;>
      first
        | (intro hfs
           simp [MCPFactory.load_tool_mappings, hp, hpne, hfs])
        | (intro v hfs
           simp [MCPFactory.load_tool_mappings, hp, hpne, hfs])

/-- **C5, witness.** The amended characterisation applied to the sample
configuration and a file parsing to the sample table. -/
theorem load_tool_mappings_cases_witness :
    MCPFactory.load_tool_mappings cfgDataInclusion (.content sampleMappings) =
      .ok sampleMappings :=
  ((load_tool_mappings_cases cfgDataInclusion
      (.content sampleMappings)).2 "mappings.json" rfl
      (by simp)).2.2.1 sampleMappings rfl

/-! ## C1: route selection in `_create_mcp_server` -/

/-- **C1, counterexample.** The claim says the tool/exclude route selection
applies to every configuration; but `_create_mcp_server` only builds the
route-map list under the configuration name `"datainclusion"`.  For the
same routes and mapping table under the name `"generic"` the list is empty:
no `TOOL` entry is built for the mapped route and there is no final
`EXCLUDE` entry. -/
theorem route_maps_claim_counterexample :
    MCPFactory.route_maps_of cfgOther [routeIn, routeOut] sampleMappings =
      .ok [] ∧
    MCPFactory.route_maps_of cfgOther [routeIn, routeOut] sampleMappings ≠
      .ok [MCPFactory.toolRouteMap routeIn, MCPFactory.excludeRouteMap] := by
  constructor
  · rfl
  · intro h
    have h' : (Except.ok [] : Except PyErr (List RouteMap)) =
        .ok [MCPFactory.toolRouteMap routeIn, MCPFactory.excludeRouteMap] := h
    simp at h'

/-- **C1 (amended).** Under the configuration name `"datainclusion"`, with
the loaded mapping table a JSON object, the route-map list contains exactly
one `TOOL` entry — carrying the route's method and the anchored pattern
`^path$` — per enumerated route whose operation id is a key of the table,
in route order, followed by a single final `EXCLUDE` entry; under every
other configuration name the route-map list is empty. -/
theorem route_maps_selection (cfg : MCPServiceConfig)
    (routes : List HTTPRoute) (kvs : List (String × JVal))
    (h : cfg.name = "datainclusion") :
    MCPFactory.route_maps_of cfg routes (.obj kvs) =
      .ok (((routes.filter (fun r => opIdIsKeyOf kvs r.operation_id)).map
             MCPFactory.toolRouteMap) ++ [MCPFactory.excludeRouteMap]) ∧
    (∀ cfg' : MCPServiceConfig, cfg'.name ≠ "datainclusion" →
       ∀ tm : JVal, MCPFactory.route_maps_of cfg' routes tm = .ok []) := by
  constructor
  · have hpred : (fun r : HTTPRoute =>
        MCPFactory.opIdAllowed (kvs.map Prod.fst) r.operation_id) =
        (fun r : HTTPRoute => opIdIsKeyOf kvs r.operation_id) := by
      funext r
      cases hop : r.operation_id with
      | none => rfl
      | some s =>
        apply Bool.eq_iff_iff.mpr
        simp [MCPFactory.opIdAllowed, opIdIsKeyOf, List.any_eq_true,
          List.mem_map]
    simp [MCPFactory.route_maps_of, h, MCPFactory.jsonObjKeys, hpred]
  · intro cfg' hname tm
    simp [MCPFactory.route_maps_of, hname]

/-- **C1, witness.** The amended selection applied to the sample fixtures:
of the two routes only the one whose operation id is a mapping key yields a
`TOOL` entry, and the `EXCLUDE` entry closes the list. -/
theorem route_maps_selection_witness :
    MCPFactory.route_maps_of cfgDataInclusion [routeIn, routeOut]
      (.obj [("op_search", .str "search_services")]) =
      .ok [MCPFactory.toolRouteMap routeIn, MCPFactory.excludeRouteMap] :=
  ((route_maps_selection cfgDataInclusion [routeIn, routeOut]
      [("op_search", .str "search_services")] rfl).1).trans (by rfl)

/-! ## C4: `_create_api_client` -/

/-- **C4.** Given a determined (truthy) base URL, `_create_api_client`
builds the `httpx.AsyncClient` with exactly that base URL, the handler
obtained from `create_auth_handler(config.auth)`, the two fixed headers
`User-Agent: DataInclusion-MCP-Server/1.0` and `Accept: application/json`,
and a 30.0-second timeout; the headers carry no `Authorization` entry, so
the method builds no authentication header itself. -/
theorem create_api_client_delegates (cfg : MCPServiceConfig) (b : JVal)
    (h : b.truthy = true) :
    MCPFactory.create_api_client cfg (some b) =
      .ok { base_url := b
            headers := MCPFactory.clientHeaders
            timeout := 30
            auth := create_auth_handler cfg.auth
            closed := false } ∧
    MCPFactory.clientHeaders.lookup "User-Agent" =
      some "DataInclusion-MCP-Server/1.0" ∧
    MCPFactory.clientHeaders.lookup "Accept" = some "application/json" ∧
    MCPFactory.clientHeaders.lookup "Authorization" = none := by
  refine ⟨?_, rfl, rfl, rfl⟩
  simp [MCPFactory.create_api_client, h]

/-- **C4, witness.** The client built for the default base URL over the
sample configuration. -/
theorem create_api_client_delegates_witness :
    MCPFactory.create_api_client cfgDataInclusion
      (some MCPFactory.defaultBaseUrl) =
      .ok { base_url := MCPFactory.defaultBaseUrl
            headers := MCPFactory.clientHeaders
            timeout := 30
            auth := create_auth_handler cfgDataInclusion.auth
            closed := false } :=
  (create_api_client_delegates cfgDataInclusion MCPFactory.defaultBaseUrl
    (by rfl)).1

/-! ## C2: the mapping table drives both transformers -/

/-- **C2.** The dictionary held in `tool_mappings` (in `build`, the value
returned by `_load_tool_mappings`) is passed unchanged as
`custom_tool_names` — together with the enumerated `http_routes` and the
shared `op_id_to_mangled_name` map — both to the temporary transformer
installed as `mcp_component_fn` by `_create_mcp_server` and to the
transformer `_transform_tools` runs; consequently (transformer internals
modelled from the spec) the custom name either transformer applies to a
tool is the value the table associates with that tool's operation id. -/
theorem transformer_uses_loaded_mappings (st : MCPFactory.FactoryState)
    (env : Env) (server : FastMCPServer)
    (hs : MCPFactory.create_mcp_server st env = .ok server) :
    server.component_fn.custom_tool_names = st.tool_mappings ∧
    st.http_routes = some server.component_fn.http_routes ∧
    server.component_fn.op_id_map = st.op_id_to_mangled_name ∧
    (∀ opId kvsM, st.tool_mappings = .obj kvsM →
        server.component_fn.customNameFor opId = kvsM.lookup opId) ∧
    (∀ tr, MCPFactory.transform_tools st env = .ok tr →
        tr.custom_tool_names = st.tool_mappings ∧
        st.http_routes = some tr.http_routes ∧
        tr.op_id_map = st.op_id_to_mangled_name ∧
        (∀ opId kvsM, st.tool_mappings = .obj kvsM →
            tr.customNameFor opId = kvsM.lookup opId)) := by
  unfold MCPFactory.create_mcp_server at hs
  split at hs
  · exact Except.noConfusion hs
  · split at hs
    · exact Except.noConfusion hs
    · split at hs
      · exact Except.noConfusion hs
      · split at hs
        · exact Except.noConfusion hs
        · split at hs
          · exact Except.noConfusion hs
          · split at hs
            · exact Except.noConfusion hs
            · split at hs
              · exact Except.noConfusion hs
              · injection hs with hsv
                subst hsv
                refine ⟨rfl, ?_, rfl, ?_, ?_⟩
                · assumption
                · intro opId kvsM hm
                  simp [ToolTransformer.customNameFor, hm]
                · intro tr htr
                  unfold MCPFactory.transform_tools at htr
                  split at htr
                  · exact Except.noConfusion htr
                  · split at htr
                    · exact Except.noConfusion htr
                    · split at htr
                      · exact Except.noConfusion htr
                      · injection htr with htv
                        subst htv
                        refine ⟨rfl, ?_, rfl, ?_⟩
                        · assumption
                        · intro opId kvsM hm
                          simp [ToolTransformer.customNameFor, hm]

/-- **C2, witness.** Over the sample state — whose `tool_mappings` is the
table loaded from the sample file — the transformer installed as
`mcp_component_fn` carries exactly that table. -/
theorem transformer_uses_loaded_mappings_witness :
    sampleServer.component_fn.custom_tool_names = sampleState.tool_mappings :=
  (transformer_uses_loaded_mappings sampleState sampleEnv sampleServer
    (by rfl)).1

/-! ## C3: the order of the build steps -/

/-- **C3.** On every successful run, `build` starts its steps in the
source order — load the mapping table, load the OpenAPI document, determine
the base URL, create the API client, create the server, and only then
transform the tools — and the data flows accordingly: the state passed to
`_create_mcp_server` holds the loaded table, the loaded document and
routes, and the client built for the determined base URL, and the server
`build` returns is exactly the one `_create_mcp_server` produced. -/
theorem build_step_order (cfg : MCPServiceConfig) (env : Env)
    (server : FastMCPServer) (stF : MCPFactory.FactoryState)
    (trace : List MCPFactory.BuildStep)
    (h : MCPFactory.build cfg env = (.ok server, stF, trace)) :
    trace = [.loadMappings, .loadSpec, .determineBase, .createClient,
             .createServer, .transformToolsStep] ∧
    ∃ m sr b client,
      MCPFactory.load_tool_mappings cfg env.mappingsFile = .ok m ∧
      env.openapiLoad = .ok sr ∧
      MCPFactory.determine_base_url (some sr.1) = .ok b ∧
      MCPFactory.create_api_client cfg (some b) = .ok client ∧
      MCPFactory.create_mcp_server
        { config := cfg
          api_client := some client
          openapi_spec := some sr.1
          http_routes := some sr.2
          base_url := some b
          op_id_to_mangled_name := []
          tool_mappings := m } env = .ok server ∧
      ∃ tr, MCPFactory.transform_tools
        { config := cfg
          api_client := some client
          openapi_spec := some sr.1
          http_routes := some sr.2
          base_url := some b
          op_id_to_mangled_name := []
          tool_mappings := m } env = .ok tr := by
  simp only [MCPFactory.build] at h
  split at h
  · simp at h
  · split at h
    · simp at h
    · split at h
      · simp at h
      · split at h
        · simp at h
        · split at h
          · simp at h
          · split at h
            · simp at h
            · simp only [Prod.mk.injEq] at h
              obtain ⟨h1, h2, h3⟩ := h
              injection h1 with h1
              subst h1
              subst h3
              refine ⟨rfl, ?_⟩
              exact ⟨_, _, _, _, by assumption, by assumption, by assumption,
                by assumption, by assumption, _, by assumption⟩

/-- **C3, witness.** The successful sample run produces exactly the
six-step trace. -/
theorem build_step_order_witness :
    buildOk.2.2 = [.loadMappings, .loadSpec, .determineBase, .createClient,
                   .createServer, .transformToolsStep] :=
  (build_step_order cfgDataInclusion sampleEnv sampleServer buildOk.2.1
    buildOk.2.2 (by rfl)).1

/-! ## C7: error handling in `build` -/

/-- **C7.** Whatever `build` returns: if it raises, then the API client —
whenever one had already been created — has been closed, and the raised
exception is the original failure of one of the six steps (never a
substituted or swallowed one); and if it returns a server, the full
pipeline ran, i.e. the server is one `_create_mcp_server` produced and the
tool transformation completed, so no partially constructed server is ever
returned. -/
theorem build_error_handling (cfg : MCPServiceConfig) (env : Env)
    (res : Except PyErr FastMCPServer) (stF : MCPFactory.FactoryState)
    (trace : List MCPFactory.BuildStep)
    (h : MCPFactory.build cfg env = (res, stF, trace)) :
    (∀ e, res = .error e →
       stF.api_client = none ∨
       ∃ c, stF.api_client = some c ∧ c.closed = true) ∧
    (∀ e, res = .error e →
       MCPFactory.load_tool_mappings cfg env.mappingsFile = .error e ∨
       env.openapiLoad = .error e ∨
       (∃ sr, env.openapiLoad = .ok sr ∧
          MCPFactory.determine_base_url (some sr.1) = .error e) ∨
       (∃ b, MCPFactory.create_api_client cfg (some b) = .error e) ∨
       (∃ st, MCPFactory.create_mcp_server st env = .error e) ∨
       (∃ st, MCPFactory.transform_tools st env = .error e)) ∧
    (∀ server, res = .ok server →
       ∃ st, MCPFactory.create_mcp_server st env = .ok server ∧
         ∃ tr, MCPFactory.transform_tools st env = .ok tr) := by
  simp only [MCPFactory.build] at h
  split at h
  · simp only [Prod.mk.injEq] at h
    obtain ⟨h1, h2, h3⟩ := h
    subst h2
    refine ⟨?_, ?_, ?_⟩
    · intro e he
      left
      rfl
    · intro e he
      rw [← h1] at he
      injection he with hee
      subst hee
      left
      assumption
    · intro server hserver
      rw [← h1] at hserver
      exact Except.noConfusion hserver
  · split at h
    · simp only [Prod.mk.injEq] at h
      obtain ⟨h1, h2, h3⟩ := h
      subst h2
      refine ⟨?_, ?_, ?_⟩
      · intro e he
        left
        rfl
      · intro e he
        rw [← h1] at he
        injection he with hee
        subst hee
        right
        left
        assumption
      · intro server hserver
        rw [← h1] at hserver
        exact Except.noConfusion hserver
    · split at h
      · simp only [Prod.mk.injEq] at h
        obtain ⟨h1, h2, h3⟩ := h
        subst h2
        refine ⟨?_, ?_, ?_⟩
        · intro e he
          left
          rfl
        · intro e he
          rw [← h1] at he
          injection he with hee
          subst hee
          right
          right
          left
          exact ⟨_, by assumption, by assumption⟩
        · intro server hserver
          rw [← h1] at hserver
          exact Except.noConfusion hserver
      · split at h
        · simp only [Prod.mk.injEq] at h
          obtain ⟨h1, h2, h3⟩ := h
          subst h2
          refine ⟨?_, ?_, ?_⟩
          · intro e he
            left
            rfl
          · intro e he
            rw [← h1] at he
            injection he with hee
            subst hee
            right
            right
            right
            left
            exact ⟨_, by assumption⟩
          · intro server hserver
            rw [← h1] at hserver
            exact Except.noConfusion hserver
        · split at h
          · simp only [Prod.mk.injEq] at h
            obtain ⟨h1, h2, h3⟩ := h
            subst h2
            refine ⟨?_, ?_, ?_⟩
            · intro e he
              right
              exact ⟨_, rfl, rfl⟩
            · intro e he
              rw [← h1] at he
              injection he with hee
              subst hee
              right
              right
              right
              right
              left
              exact ⟨_, by assumption⟩
            · intro server hserver
              rw [← h1] at hserver
              exact Except.noConfusion hserver
          · split at h
            · simp only [Prod.mk.injEq] at h
              obtain ⟨h1, h2, h3⟩ := h
              subst h2
              refine ⟨?_, ?_, ?_⟩
              · intro e he
                right
                exact ⟨_, rfl, rfl⟩
              · intro e he
                rw [← h1] at he
                injection he with hee
                subst hee
                right
                right
                right
                right
                right
                exact ⟨_, by assumption⟩
              · intro server hserver
                rw [← h1] at hserver
                exact Except.noConfusion hserver
            · simp only [Prod.mk.injEq] at h
              obtain ⟨h1, h2, h3⟩ := h
              subst h2
              refine ⟨?_, ?_, ?_⟩
              · intro e he
                rw [← h1] at he
                exact Except.noConfusion he
              · intro e he
                rw [← h1] at he
                exact Except.noConfusion he
              · intro server hserver
                rw [← h1] at hserver
                injection hserver with hsv
                subst hsv
                exact ⟨_, by assumption, _, by assumption⟩

/-- **C7, witness.** In the sample run failing at the transformation step,
the already-created client has been closed when `build` re-raises. -/
theorem build_error_handling_witness :
    buildFail.2.1.api_client = none ∨
    ∃ c, buildFail.2.1.api_client = some c ∧ c.closed = true :=
  (build_error_handling cfgDataInclusion failEnv buildFail.1 buildFail.2.1
    buildFail.2.2 (by rfl)).1 (.externalError "transform failed") (by rfl)
